import Mathlib

/- Shallow embedding of the execution-sandbox core of the data-to-paper repository:
   the scoped guards of scientistgpt/run_gpt_code/run_context.py (prevent_file_open,
   prevent_calling, PreventImport) and the sklearn policy wrappers of
   data_to_paper/run_gpt_code/overrides/sklearn/override_sklearn.py. -/

namespace Sandbox

/-- Python exception values raised by the sandbox code. The first four constructors
are the custom exception classes raised in run_context.py; the last four are the
RuntimeWarning raise sites of override_sklearn.py, with payloads recording the data
interpolated into each message (run_context.py lines 26, 28, 55, 92;
override_sklearn.py lines 28, 65, 130, 135). -/
inductive PyExn where
  | codeWriteForbiddenFile (file : Option String)
  | codeReadForbiddenFile (file : Option String)
  | codeUsesForbiddenFunctions (funcName : String)
  | codeImportForbiddenModule (module : String)
  | runtimeWarningResultReused (funcName : String)
  | runtimeWarningSearchLimit (originalLen maxIterations : Nat) (estimatorClassName : String)
  | runtimeWarningTooManyLayers (numLayers maxLayers maxNeuronsPerLayer : Nat)
  | runtimeWarningLayerTooLarge (layerIndex maxLayers maxNeuronsPerLayer : Nat)
  deriving DecidableEq

/-- Name of the Python class of the raised exception object. The four guard errors of
run_context.py are instances of the dedicated classes of run_gpt_code/exceptions.py;
all four sklearn policy violations are instances of the built-in RuntimeWarning. -/
def PyExn.pythonExceptionType : PyExn → String
  | codeWriteForbiddenFile _ => "CodeWriteForbiddenFile"
  | codeReadForbiddenFile _ => "CodeReadForbiddenFile"
  | codeUsesForbiddenFunctions _ => "CodeUsesForbiddenFunctions"
  | codeImportForbiddenModule _ => "CodeImportForbiddenModule"
  | runtimeWarningResultReused _ => "RuntimeWarning"
  | runtimeWarningSearchLimit _ _ _ => "RuntimeWarning"
  | runtimeWarningTooManyLayers _ _ _ => "RuntimeWarning"
  | runtimeWarningLayerTooLarge _ _ _ => "RuntimeWarning"

/-- Exception class names that are generic built-ins of the Python language
(as opposed to classes defined by this repository). RuntimeWarning is a built-in
Python warning class. -/
def python_builtin_exception_types : List String :=
  ["BaseException", "Exception", "RuntimeError", "ValueError", "TypeError",
   "Warning", "RuntimeWarning", "UserWarning", "ImportError", "OSError"]

/-- Attribution test used by prevent_calling (run_context.py line 54) and by
PreventImport.custom_import (line 91): the filename of the relevant stack frame is
tested with str.endswith against the filename of the dynamically loaded module.
The endswith test is embedded as a suffix test on the character sequences. -/
def is_attributed (module_filename frame_filename : String) : Bool :=
  module_filename.data.isSuffixOf frame_filename.data

/-- Arguments of an intercepted call to builtins.open, as open_wrapper sees them
(run_context.py lines 21-23): positional arguments, and the two keyword arguments
the wrapper consults. -/
structure OpenCall where
  positionalArgs : List String
  kwFile : Option String
  kwMode : Option String
  deriving DecidableEq

/-- Line 22: file_name is args[0] when present, else the file keyword, else None. -/
def OpenCall.fileName (call : OpenCall) : Option String :=
  match call.positionalArgs.get? 0 with
  | some f => some f
  | none => call.kwFile

/-- Line 23: open_mode is args[1] when present, else the mode keyword, defaulting
to the string r. -/
def OpenCall.openMode (call : OpenCall) : String :=
  match call.positionalArgs.get? 1 with
  | some m => m
  | none => call.kwMode.getD "r"

/-- Line 24: the call is classified as a write exactly when the mode string is a
member of the list [w, a, x]. -/
def is_opening_for_writing (call : OpenCall) : Bool :=
  (["w", "a", "x"] : List String).contains call.openMode

/-- Python membership of the possibly-None file_name in a list of file names:
None is a member of no list of strings. -/
def fileNameIn (file_name : Option String) (files : List String) : Bool :=
  match file_name with
  | some f => files.contains f
  | none => false

/-- open_wrapper of prevent_file_open (run_context.py lines 21-29). Note that the
wrapper performs no stack inspection: the caller_filename of whoever invoked open is
ignored, and the allow-list checks run for every intercepted call. On success the
wrapper delegates to the captured original open and returns its result unchanged. -/
def open_wrapper (allowed_read_files allowed_write_files : Option (List String))
    (original_open : OpenCall → Nat) (caller_filename : String) (call : OpenCall) :
    Except PyExn Nat :=
  let _ := caller_filename
  if is_opening_for_writing call && allowed_write_files.isSome
      && !(fileNameIn call.fileName (allowed_write_files.getD [])) then
    Except.error (PyExn.codeWriteForbiddenFile call.fileName)
  else if !(is_opening_for_writing call) && allowed_read_files.isSome
      && !(fileNameIn call.fileName (allowed_read_files.getD [])) then
    Except.error (PyExn.codeReadForbiddenFile call.fileName)
  else
    Except.ok (original_open call)

/-- upon_called of prevent_calling (run_context.py lines 50-57): if the filename of
the calling frame ends with the module filename, raise CodeUsesForbiddenFunctions;
otherwise forward to the original function. -/
def upon_called (module_filename func_name : String) (original_func : Nat → Nat)
    (frame_filename : String) (args : Nat) : Except PyExn Nat :=
  if is_attributed module_filename frame_filename then
    Except.error (PyExn.codeUsesForbiddenFunctions func_name)
  else
    Except.ok (original_func args)

/-- Line 89 of run_context.py: the requested name matches the forbidden list when it
starts with some forbidden module followed by a dot, or equals a forbidden module.
The startswith test is embedded as a prefix test on the character sequences. -/
def matches_forbidden_module (modules : List String) (name : String) : Bool :=
  modules.any (fun m => (m ++ ".").data.isPrefixOf name.data) || modules.contains name

/-- PreventImport.custom_import (run_context.py lines 88-93): on a matching name
whose calling frame is attributed to the loaded module, raise
CodeImportForbiddenModule; in every other case forward to the original resolver. -/
def custom_import (modules : List String) (module_filename : String)
    (original_import : String → Nat) (frame_filename name : String) : Except PyExn Nat :=
  if matches_forbidden_module modules name && is_attributed module_filename frame_filename then
    Except.error (PyExn.codeImportForbiddenModule name)
  else
    Except.ok (original_import name)

/-- Python function values that can sit in a patched attribute slot: ordinary
functions (identified by a number), and the closures the guards install. A fresh
closure is never equal to the function it wraps, which constructor injectivity
captures. -/
inductive PyVal where
  | base (n : Nat)
  | uponCalledWrapper (funcName : String) (original : PyVal)
  | openWrapperClosure (allowedReadFiles allowedWriteFiles : Option (List String))
      (originalOpen : PyVal)
  | customImportMethod (modules : List String) (originalImport : PyVal)
  deriving DecidableEq

/-- The two builtins slots patched by prevent_file_open and PreventImport. -/
structure Builtins where
  openFn : PyVal
  importFn : PyVal
  deriving DecidableEq

/-- How the guarded body terminated: normal return or a raised exception. -/
inductive Outcome where
  | normal
  | raised (e : PyExn)
  deriving DecidableEq

/-- prevent_file_open as a whole (run_context.py lines 10-35): capture
builtins.open, install the wrapper closure, run the body, and in the finally
block put the captured original back — whatever the body did and however it
terminated. -/
def prevent_file_open_run (allowed_read_files allowed_write_files : Option (List String))
    (body : Builtins → Outcome × Builtins) (b : Builtins) : Outcome × Builtins :=
  let original_open := b.openFn
  let entered : Builtins :=
    ⟨PyVal.openWrapperClosure allowed_read_files allowed_write_files original_open, b.importFn⟩
  let res := body entered
  (res.1, ⟨original_open, res.2.importFn⟩)

/-- PreventImport as a whole (run_context.py lines 74-86): capture
builtins.__import__ on entry, install the bound custom_import, run the body, and
restore the captured original on exit. -/
def prevent_import_run (modules : List String) (body : Builtins → Outcome × Builtins)
    (b : Builtins) : Outcome × Builtins :=
  let original_import := b.importFn
  let entered : Builtins := ⟨b.openFn, PyVal.customImportMethod modules original_import⟩
  let res := body entered
  (res.1, ⟨res.2.openFn, original_import⟩)

/-- A (module, function_name) pair of prevent_calling, the module identified by
name. -/
abbrev FuncKey := String × String

/-- The attribute table the setattr/getattr calls of prevent_calling act on. -/
abbrev FuncStore := FuncKey → PyVal

/-- setattr on the attribute table. -/
def setattr (store : FuncStore) (key : FuncKey) (v : PyVal) : FuncStore :=
  fun k => if k = key then v else store k

/-- Entry loop of prevent_calling (run_context.py lines 59-64): for each
(module, function_name) in order, read the current attribute, append it to
original_functions, and install a fresh upon_called wrapper over it. Returns the
patched table and the recorded original_functions list. -/
def prevent_calling_enter : List FuncKey → FuncStore → FuncStore × List PyVal
  | [], store => (store, [])
  | (m, f) :: rest, store =>
      let original_function := store (m, f)
      let patched := setattr store (m, f) (PyVal.uponCalledWrapper f original_function)
      let res := prevent_calling_enter rest patched
      (res.1, original_function :: res.2)

/-- Exit loop of prevent_calling (run_context.py lines 68-71): walk the same list
in the same order and setattr back the recorded originals, popped front first. -/
def prevent_calling_exit : List FuncKey → List PyVal → FuncStore → FuncStore
  | (m, f) :: rest, v :: vs, store => prevent_calling_exit rest vs (setattr store (m, f) v)
  | _, _, store => store

/-- prevent_calling as a whole (run_context.py lines 38-71): patch every listed
attribute, run the body, and in the finally block run the restore loop — whatever
the body did and however it terminated. -/
def prevent_calling_run (modules_and_functions : List FuncKey)
    (body : FuncStore → Outcome × FuncStore) (store : FuncStore) : Outcome × FuncStore :=
  let entered := prevent_calling_enter modules_and_functions store
  let res := body entered.1
  (res.1, prevent_calling_exit modules_and_functions entered.2 res.2)

/-- Wrapper installed by SklearnOverride on fit-like methods
(override_sklearn.py lines 21-35). The original function has already produced
result; prior_fit_results is the marker attribute of the target object (none when
the attribute is absent), and result identity is modeled by a numeric object
identifier. Raises the RuntimeWarning only for calls attributed to the sandboxed
unit whose result is the very marker already on the object; otherwise stores the
result as the new marker. -/
def sklearn_fit_wrapped (func_name : String) (is_called_from_data_to_paper : Bool)
    (prior_fit_results : Option Nat) (result : Nat) : Except PyExn (Nat × Option Nat) :=
  if is_called_from_data_to_paper then
    if prior_fit_results = some result then
      Except.error (PyExn.runtimeWarningResultReused func_name)
    else
      Except.ok (result, some result)
  else
    Except.ok (result, prior_fit_results)

/-- Wrapper installed by SklearnSearchLimitCheck on the parameter-grid length
methods (override_sklearn.py lines 58-73): compute the original length, raise the
RuntimeWarning when it exceeds max_iterations, else return it unchanged. -/
def sklearn_len_wrapped (max_iterations : Nat) (estimator_class_name : String)
    (original_len : Nat) : Except PyExn Nat :=
  if original_len > max_iterations then
    Except.error (PyExn.runtimeWarningSearchLimit original_len max_iterations
      estimator_class_name)
  else
    Except.ok original_len

/-- Index of the first layer whose size exceeds the literal 50 hardcoded at
override_sklearn.py line 134 (the loop of lines 133-137). -/
def first_layer_over_50 : List Nat → Option Nat
  | [] => none
  | s :: rest =>
      if s > 50 then some 0 else (first_layer_over_50 rest).map (fun i => i + 1)

/-- Wrapper installed by SklearnNNSizeOverride on the MLP constructors
(override_sklearn.py lines 120-142): take the hidden_layer_sizes keyword if
supplied, else the class default; raise the too-many-layers RuntimeWarning when
the layer count exceeds max_layers; raise the layer-too-large RuntimeWarning at
the first layer whose size exceeds the literal 50 of line 134 (note: not
max_neurons_per_layer, which appears only in the message); otherwise delegate to
the original constructor. -/
def sklearn_nn_init_wrapped (max_layers max_neurons_per_layer : Nat)
    (default_hidden_layer_sizes : List Nat) (kwargs_hidden_layer_sizes : Option (List Nat))
    (original_func : Option (List Nat) → Nat) : Except PyExn Nat :=
  let hidden_layer_sizes :=
    match kwargs_hidden_layer_sizes with
    | some sizes => sizes
    | none => default_hidden_layer_sizes
  if hidden_layer_sizes.length > max_layers then
    Except.error (PyExn.runtimeWarningTooManyLayers hidden_layer_sizes.length
      max_layers max_neurons_per_layer)
  else
    match first_layer_over_50 hidden_layer_sizes with
    | some layer =>
        Except.error (PyExn.runtimeWarningLayerTooLarge layer max_layers
          max_neurons_per_layer)
    | none => Except.ok (original_func kwargs_hidden_layer_sizes)

/-- Writing a key leaves every other key unchanged. -/
theorem setattr_ne (store : FuncStore) (key k : FuncKey) (v : PyVal) (h : k ≠ key) :
    setattr store key v k = store k := by
  simp [setattr, h]

/-- The restore loop touches no key outside the listed pairs. -/
theorem prevent_calling_exit_not_mem (mfs : List FuncKey) (vs : List PyVal)
    (store : FuncStore) (k : FuncKey) (h : k ∉ mfs) :
    prevent_calling_exit mfs vs store k = store k := by
  induction mfs generalizing vs store with
  | nil => rfl
  | cons a rest ih =>
      obtain ⟨m, f⟩ := a
      cases vs with
      | nil => rfl
      | cons v vs =>
          have hk : k ≠ (m, f) := fun he => h (he ▸ List.mem_cons_self _ _)
          have hr : k ∉ rest := fun he => h (List.mem_cons_of_mem _ he)
          simp only [prevent_calling_exit]
          rw [ih vs _ hr]
          exact setattr_ne store (m, f) k v hk

/-- With no duplicate pair, the recorded original_functions list is exactly the
pre-entry value of each listed attribute, in list order. -/
theorem prevent_calling_enter_snd (mfs : List FuncKey) (store : FuncStore)
    (h : mfs.Nodup) : (prevent_calling_enter mfs store).2 = mfs.map store := by
  induction mfs generalizing store with
  | nil => rfl
  | cons a rest ih =>
      obtain ⟨m, f⟩ := a
      obtain ⟨hnm, hrest⟩ := List.nodup_cons.mp h
      simp only [prevent_calling_enter, List.map]
      rw [ih _ hrest]
      refine congrArg _ (List.map_congr_left fun x hx => ?_)
      exact setattr_ne store (m, f) x _ (fun he => hnm (he ▸ hx))

/-- Running the restore loop with the pre-entry values puts every listed key back
to its pre-entry value, on any intermediate store, when the list has no duplicate
pair. -/
theorem prevent_calling_exit_map (mfs : List FuncKey) (s t : FuncStore) (k : FuncKey)
    (hnd : mfs.Nodup) (hk : k ∈ mfs) :
    prevent_calling_exit mfs (mfs.map s) t k = s k := by
  induction mfs generalizing t with
  | nil => cases hk
  | cons a rest ih =>
      obtain ⟨m, f⟩ := a
      obtain ⟨hnm, hrest⟩ := List.nodup_cons.mp hnd
      simp only [List.map, prevent_calling_exit]
      rcases List.mem_cons.mp hk with hka | hkr
      · subst hka
        rw [prevent_calling_exit_not_mem rest _ _ _ hnm]
        simp [setattr]
      · exact ih _ hrest hkr

/-- C1 (counterexample): open_wrapper consults no stack frame at all, so an open
call whose caller is not attributed to the sandboxed unit is still checked
against the allow-lists and raises CodeReadForbiddenFile — the claim that a
non-attributed call is never intercepted fails for prevent_file_open. -/
theorem c1_counterexample_open_ignores_origin :
    is_attributed "module1.py" "test_framework.py" = false
    ∧ open_wrapper (some ["a.txt"]) none (fun _ => 0) "test_framework.py"
        ⟨["b.txt"], none, none⟩ = Except.error (PyExn.codeReadForbiddenFile (some "b.txt")) :=
  ⟨by decide, rfl⟩

/-- C1 (amended): calls not attributed to the sandboxed unit pass through
untouched for prevent_calling and PreventImport, whose wrappers check the calling
frame; prevent_file_open performs no origin check, so its behavior is independent
of the caller, and its allow-list checks apply to every intercepted open. -/
theorem c1_nonattributed_passthrough (module_filename func_name imp_name : String)
    (modules : List String) (original_func : Nat → Nat) (original_import : String → Nat)
    (original_open : OpenCall → Nat) (allowed_read_files allowed_write_files : Option (List String))
    (frame_filename caller1 caller2 : String) (args : Nat) (call : OpenCall)
    (h : is_attributed module_filename frame_filename = false) :
    upon_called module_filename func_name original_func frame_filename args
        = Except.ok (original_func args)
    ∧ custom_import modules module_filename original_import frame_filename imp_name
        = Except.ok (original_import imp_name)
    ∧ open_wrapper allowed_read_files allowed_write_files original_open caller1 call
        = open_wrapper allowed_read_files allowed_write_files original_open caller2 call := by
  refine ⟨?_, ?_, rfl⟩
  · simp [upon_called, h]
  · simp [custom_import, h]

/-- C1 witness: concrete non-attributed calls pass through to the originals. -/
theorem c1_nonattributed_passthrough_witness :
    upon_called "module1.py" "print" (fun n => n + 1) "conftest.py" 3
        = Except.ok ((fun n => n + 1) 3)
    ∧ custom_import ["os"] "module1.py" (fun _ => 9) "conftest.py" "os"
        = Except.ok ((fun _ => 9) "os")
    ∧ open_wrapper (some ["a.txt"]) none (fun _ => 5) "conftest.py" ⟨["a.txt"], none, none⟩
        = open_wrapper (some ["a.txt"]) none (fun _ => 5) "runner.py" ⟨["a.txt"], none, none⟩ :=
  c1_nonattributed_passthrough "module1.py" "print" "os" ["os"] (fun n => n + 1)
    (fun _ => 9) (fun _ => 5) (some ["a.txt"]) none "conftest.py" "conftest.py" "runner.py"
    3 ⟨["a.txt"], none, none⟩ (by decide)

/-- C2 (counterexample): with the duplicated pair (m, f) listed twice, the restore
loop of prevent_calling first writes back the true original and then overwrites it
with the recorded intermediate value, which is the wrapper installed by the first
iteration — so after a normal exit the attribute is not the pre-entry value. -/
theorem c2_counterexample_duplicate_entries :
    (prevent_calling_run [("m", "f"), ("m", "f")] (fun s => (Outcome.normal, s))
        (fun _ => PyVal.base 0)).2 ("m", "f")
      ≠ (fun (_ : FuncKey) => PyVal.base 0) ("m", "f") := by
  decide

/-- C2 (amended): after a guard exits — whatever the body did and however it
terminated — builtins.open and builtins.__import__ are restored exactly by
prevent_file_open and PreventImport, and every attribute patched by
prevent_calling is restored exactly provided no (module, function_name) pair
occurs twice in the list; with a duplicated pair the attribute can be left holding
one of the guard wrappers. -/
theorem c2_guard_restoration (allowed_read_files allowed_write_files : Option (List String))
    (modules : List String) (body1 body2 : Builtins → Outcome × Builtins)
    (body3 : FuncStore → Outcome × FuncStore) (b1 b2 : Builtins)
    (mfs : List FuncKey) (store : FuncStore) (k : FuncKey)
    (hnodup : mfs.Nodup) (hk : k ∈ mfs) :
    (prevent_file_open_run allowed_read_files allowed_write_files body1 b1).2.openFn = b1.openFn
    ∧ (prevent_import_run modules body2 b2).2.importFn = b2.importFn
    ∧ (prevent_calling_run mfs body3 store).2 k = store k := by
  refine ⟨rfl, rfl, ?_⟩
  show prevent_calling_exit mfs (prevent_calling_enter mfs store).2 _ k = store k
  rw [prevent_calling_enter_snd mfs store hnodup]
  exact prevent_calling_exit_map mfs store _ k hnodup hk

/-- C2 witness: concrete guards around a body that raises still restore the
patched slots, with a duplicate-free list for prevent_calling. -/
theorem c2_guard_restoration_witness :
    (prevent_file_open_run (some ["a.txt"]) none
        (fun b => (Outcome.raised (PyExn.codeReadForbiddenFile (some "b.txt")), b))
        ⟨PyVal.base 1, PyVal.base 2⟩).2.openFn = (⟨PyVal.base 1, PyVal.base 2⟩ : Builtins).openFn
    ∧ (prevent_import_run ["os"]
        (fun b => (Outcome.raised (PyExn.codeImportForbiddenModule "os"), b))
        ⟨PyVal.base 3, PyVal.base 4⟩).2.importFn = (⟨PyVal.base 3, PyVal.base 4⟩ : Builtins).importFn
    ∧ (prevent_calling_run [("m", "f"), ("m", "g")]
        (fun s => (Outcome.raised (PyExn.codeUsesForbiddenFunctions "print"), s))
        (fun _ => PyVal.base 0)).2 ("m", "f") = (fun (_ : FuncKey) => PyVal.base 0) ("m", "f") :=
  c2_guard_restoration (some ["a.txt"]) none ["os"]
    (fun b => (Outcome.raised (PyExn.codeReadForbiddenFile (some "b.txt")), b))
    (fun b => (Outcome.raised (PyExn.codeImportForbiddenModule "os"), b))
    (fun s => (Outcome.raised (PyExn.codeUsesForbiddenFunctions "print"), s))
    ⟨PyVal.base 1, PyVal.base 2⟩ ⟨PyVal.base 3, PyVal.base 4⟩
    [("m", "f"), ("m", "g")] (fun _ => PyVal.base 0) ("m", "f")
    (by decide) (by decide)

/-- C3 (counterexample): two different sklearn-policy violations — result reuse
and too many layers — are both raised as the same Python class RuntimeWarning,
which is a generic built-in exception type, contradicting the claim that every
violation is a distinct, violation-specific error kind and never a generic
built-in. -/
theorem c3_counterexample_builtin_runtime_warning :
    sklearn_fit_wrapped "fit" true (some 0) 0
        = Except.error (PyExn.runtimeWarningResultReused "fit")
    ∧ sklearn_nn_init_wrapped 2 50 [100] (some [30, 40, 10]) (fun _ => 0)
        = Except.error (PyExn.runtimeWarningTooManyLayers 3 2 50)
    ∧ (PyExn.runtimeWarningResultReused "fit").pythonExceptionType = "RuntimeWarning"
    ∧ (PyExn.runtimeWarningTooManyLayers 3 2 50).pythonExceptionType = "RuntimeWarning"
    ∧ "RuntimeWarning" ∈ python_builtin_exception_types :=
  ⟨rfl, rfl, rfl, rfl, by decide⟩

/-- C3 (amended): the violations of the file/call/import guards are raised as
dedicated exception classes carrying the offending file, function or module name,
none of them a Python built-in; the sklearn-policy violations are raised as the
generic built-in RuntimeWarning, distinguished only by the message, which carries
the offending values. -/
theorem c3_error_kinds (file func_name module_name estimator_name : String)
    (result original_len max_iterations : Nat)
    (h : original_len > max_iterations) :
    (PyExn.codeReadForbiddenFile (some file)).pythonExceptionType
        ∉ python_builtin_exception_types
    ∧ (PyExn.codeWriteForbiddenFile (some file)).pythonExceptionType
        ∉ python_builtin_exception_types
    ∧ (PyExn.codeUsesForbiddenFunctions func_name).pythonExceptionType
        ∉ python_builtin_exception_types
    ∧ (PyExn.codeImportForbiddenModule module_name).pythonExceptionType
        ∉ python_builtin_exception_types
    ∧ sklearn_fit_wrapped func_name true (some result) result
        = Except.error (PyExn.runtimeWarningResultReused func_name)
    ∧ sklearn_len_wrapped max_iterations estimator_name original_len
        = Except.error (PyExn.runtimeWarningSearchLimit original_len max_iterations
            estimator_name)
    ∧ (PyExn.runtimeWarningResultReused func_name).pythonExceptionType = "RuntimeWarning"
    ∧ (PyExn.runtimeWarningSearchLimit original_len max_iterations
        estimator_name).pythonExceptionType = "RuntimeWarning"
    ∧ "RuntimeWarning" ∈ python_builtin_exception_types := by
  refine ⟨?_, ?_, ?_, ?_, ?_, ?_, rfl, rfl, by decide⟩
  · simp [PyExn.pythonExceptionType, python_builtin_exception_types]
  · simp [PyExn.pythonExceptionType, python_builtin_exception_types]
  · simp [PyExn.pythonExceptionType, python_builtin_exception_types]
  · simp [PyExn.pythonExceptionType, python_builtin_exception_types]
  · simp [sklearn_fit_wrapped]
  · simp [sklearn_len_wrapped, h]

/-- C3 witness: a concrete search-space size of 13 against a budget of 12. -/
theorem c3_error_kinds_witness :
    (PyExn.codeReadForbiddenFile (some "b.txt")).pythonExceptionType
        ∉ python_builtin_exception_types
    ∧ (PyExn.codeWriteForbiddenFile (some "b.txt")).pythonExceptionType
        ∉ python_builtin_exception_types
    ∧ (PyExn.codeUsesForbiddenFunctions "print").pythonExceptionType
        ∉ python_builtin_exception_types
    ∧ (PyExn.codeImportForbiddenModule "os").pythonExceptionType
        ∉ python_builtin_exception_types
    ∧ sklearn_fit_wrapped "print" true (some 7) 7
        = Except.error (PyExn.runtimeWarningResultReused "print")
    ∧ sklearn_len_wrapped 12 "MLPRegressor" 13
        = Except.error (PyExn.runtimeWarningSearchLimit 13 12 "MLPRegressor")
    ∧ (PyExn.runtimeWarningResultReused "print").pythonExceptionType = "RuntimeWarning"
    ∧ (PyExn.runtimeWarningSearchLimit 13 12 "MLPRegressor").pythonExceptionType
        = "RuntimeWarning"
    ∧ "RuntimeWarning" ∈ python_builtin_exception_types :=
  c3_error_kinds "b.txt" "print" "os" "MLPRegressor" 7 13 12 (by decide)

/-- C4: evaluation of the SklearnNNSizeOverride wrapper. Under the default
configuration (max_layers 2, max_neurons_per_layer 50) the three documented
examples behave as the claim states; but with max_neurons_per_layer raised to
100, the configuration (60) — one layer of 60 neurons, within both configured
maxima — still raises the layer-too-large RuntimeWarning, because line 134
compares each layer size against the literal 50 rather than
self.max_neurons_per_layer, contradicting the error message built right below
it. -/
theorem c4_nn_size_code_evaluation :
    sklearn_nn_init_wrapped 2 50 [100] (some [30, 40]) (fun _ => 0) = Except.ok 0
    ∧ sklearn_nn_init_wrapped 2 50 [100] (some [30, 40, 10]) (fun _ => 0)
        = Except.error (PyExn.runtimeWarningTooManyLayers 3 2 50)
    ∧ sklearn_nn_init_wrapped 2 50 [100] (some [30, 60]) (fun _ => 0)
        = Except.error (PyExn.runtimeWarningLayerTooLarge 1 2 50)
    ∧ sklearn_nn_init_wrapped 2 100 [100] (some [60]) (fun _ => 0)
        = Except.error (PyExn.runtimeWarningLayerTooLarge 0 2 100)
    ∧ 60 ≤ 100 ∧ (1 : Nat) ≤ 2 :=
  ⟨rfl, rfl, rfl, rfl, by decide, by decide⟩

/-- C5: with allowed_read_files = [a.txt], a read-mode open of a.txt delegates to
the captured original open and returns its result unchanged, while a read-mode
open of b.txt raises CodeReadForbiddenFile with the offending name; the error is
the same for every original open, so the original is never consulted for it. The
attribution hypothesis records that the call comes from the sandboxed unit, which
open_wrapper does not even inspect. -/
theorem c5_read_allowlist (module_filename caller_filename : String)
    (original_open : OpenCall → Nat)
    (h : is_attributed module_filename caller_filename = true) :
    open_wrapper (some ["a.txt"]) none original_open caller_filename ⟨["a.txt"], none, none⟩
        = Except.ok (original_open ⟨["a.txt"], none, none⟩)
    ∧ open_wrapper (some ["a.txt"]) none original_open caller_filename ⟨["b.txt"], none, none⟩
        = Except.error (PyExn.codeReadForbiddenFile (some "b.txt")) :=
  ⟨rfl, rfl⟩

/-- C5 witness: the sandboxed module itself as caller. -/
theorem c5_read_allowlist_witness :
    open_wrapper (some ["a.txt"]) none (fun _ => 42) "module1.py" ⟨["a.txt"], none, none⟩
        = Except.ok ((fun _ => 42) (⟨["a.txt"], none, none⟩ : OpenCall))
    ∧ open_wrapper (some ["a.txt"]) none (fun _ => 42) "module1.py" ⟨["b.txt"], none, none⟩
        = Except.error (PyExn.codeReadForbiddenFile (some "b.txt")) :=
  c5_read_allowlist "module1.py" "module1.py" (fun _ => 42) (by decide)

/-- C6 (counterexample): the attribution check is a plain endswith, so a frame
from a different file whose name merely ends with the sandboxed unit's filename
is attributed to it, and a guarded call from that file is intercepted — the claim
that such a call is never attributed fails. -/
theorem c6_counterexample_suffix_false_positive :
    ("pytest_module1.py" : String) ≠ "module1.py"
    ∧ is_attributed "module1.py" "pytest_module1.py" = true
    ∧ upon_called "module1.py" "print" (fun _ => 0) "pytest_module1.py" 0
        = Except.error (PyExn.codeUsesForbiddenFunctions "print") :=
  ⟨by decide, by decide, rfl⟩

/-- C6 (amended): attribution is exactly a suffix test on the frame filename
against the loaded unit's filename, independent of any absolute path; a frame
whose filename does not end with the unit's filename is never attributed, so
prevent_calling forwards it to the original and PreventImport forwards it to the
original resolver — but a distinct file whose name does end with the unit's
filename is attributed, so false positives for such files are possible. -/
theorem c6_attribution_suffix_rule (module_filename frame_filename func_name imp_name : String)
    (modules : List String) (original_func : Nat → Nat) (original_import : String → Nat)
    (args : Nat)
    (h : module_filename.data.isSuffixOf frame_filename.data = false) :
    is_attributed module_filename frame_filename = false
    ∧ upon_called module_filename func_name original_func frame_filename args
        = Except.ok (original_func args)
    ∧ custom_import modules module_filename original_import frame_filename imp_name
        = Except.ok (original_import imp_name) := by
  have ha : is_attributed module_filename frame_filename = false := h
  refine ⟨ha, ?_, ?_⟩
  · simp [upon_called, ha]
  · simp [custom_import, ha]

/-- C6 witness: a frame filename that does not end with the unit's filename. -/
theorem c6_attribution_suffix_rule_witness :
    is_attributed "module1.py" "sklearn/base.py" = false
    ∧ upon_called "module1.py" "print" (fun n => n * 2) "sklearn/base.py" 4
        = Except.ok ((fun n => n * 2) 4)
    ∧ custom_import ["os"] "module1.py" (fun _ => 11) "sklearn/base.py" "os"
        = Except.ok ((fun _ => 11) "os") :=
  c6_attribution_suffix_rule "module1.py" "sklearn/base.py" "print" "os" ["os"]
    (fun n => n * 2) (fun _ => 11) 4 (by decide)

/-- C7: PreventImport raises CodeImportForbiddenModule on the requested name if
and only if the name equals some forbidden module or starts with a forbidden
module followed by a dot, and the requesting frame is attributed to the sandboxed
unit; in every other case it forwards the request to the original resolver and
returns its result. -/
theorem c7_import_guard_iff (modules : List String) (module_filename : String)
    (original_import : String → Nat) (frame_filename name : String) :
    (custom_import modules module_filename original_import frame_filename name
        = Except.error (PyExn.codeImportForbiddenModule name)
      ↔ ((name ∈ modules ∨ ∃ m ∈ modules, ((m ++ ".").data.isPrefixOf name.data) = true)
          ∧ is_attributed module_filename frame_filename = true))
    ∧ (¬ ((name ∈ modules ∨ ∃ m ∈ modules, ((m ++ ".").data.isPrefixOf name.data) = true)
          ∧ is_attributed module_filename frame_filename = true) →
        custom_import modules module_filename original_import frame_filename name
          = Except.ok (original_import name)) := by
  have hm : matches_forbidden_module modules name = true
      ↔ (name ∈ modules ∨ ∃ m ∈ modules, ((m ++ ".").data.isPrefixOf name.data) = true) := by
    simp only [matches_forbidden_module, Bool.or_eq_true, List.any_eq_true]
    simp
    exact Or.comm
  constructor
  · by_cases hb : (matches_forbidden_module modules name
        && is_attributed module_filename frame_filename) = true
    · have hb1 := hb
      simp only [Bool.and_eq_true] at hb1
      have hcust : custom_import modules module_filename original_import frame_filename name
          = Except.error (PyExn.codeImportForbiddenModule name) := by
        simp [custom_import, hb]
      exact iff_of_true hcust ⟨hm.mp hb1.1, hb1.2⟩
    · rw [show custom_import modules module_filename original_import frame_filename name
          = Except.ok (original_import name) from by simp [custom_import, hb]]
      constructor
      · intro he; cases he
      · intro hc
        refine absurd ?_ hb
        simp only [Bool.and_eq_true]
        exact ⟨hm.mpr hc.1, hc.2⟩
  · intro hn
    have hb : ¬ (matches_forbidden_module modules name
        && is_attributed module_filename frame_filename) = true := by
      intro hb
      simp only [Bool.and_eq_true] at hb
      exact hn ⟨hm.mp hb.1, hb.2⟩
    simp [custom_import, hb]

/-- C7 witness: a request for a non-matching name from a non-attributed frame is
forwarded to the original resolver. -/
theorem c7_import_guard_iff_witness :
    custom_import ["os"] "module1.py" (fun _ => 3) "pytest.py" "json"
        = Except.ok ((fun _ => 3) "json") :=
  (c7_import_guard_iff ["os"] "module1.py" (fun _ => 3) "pytest.py" "json").2 (by decide)

/-- C8: under SklearnOverride, a call from outside the sandboxed unit never
raises and leaves the marker untouched, whatever the marker already is; a first
sandboxed call on an object with no marker succeeds and stores its result; and a
second sandboxed call whose fit-style original returns the same result instance
again (hfit) raises the result-reused RuntimeWarning. -/
theorem c8_result_reuse (func_name : String) (marker : Option Nat) (r1 r2 : Nat)
    (hfit : r2 = r1) :
    sklearn_fit_wrapped func_name false marker r1 = Except.ok (r1, marker)
    ∧ sklearn_fit_wrapped func_name true none r1 = Except.ok (r1, some r1)
    ∧ sklearn_fit_wrapped func_name true (some r1) r2
        = Except.error (PyExn.runtimeWarningResultReused func_name) := by
  subst hfit
  refine ⟨rfl, ?_, ?_⟩
  · simp [sklearn_fit_wrapped]
  · simp [sklearn_fit_wrapped]

/-- C8 witness: a concrete double fit. -/
theorem c8_result_reuse_witness :
    sklearn_fit_wrapped "fit" false (some 9) 5 = Except.ok (5, some 9)
    ∧ sklearn_fit_wrapped "fit" true none 5 = Except.ok (5, some 5)
    ∧ sklearn_fit_wrapped "fit" true (some 5) 5
        = Except.error (PyExn.runtimeWarningResultReused "fit") :=
  c8_result_reuse "fit" (some 9) 5 5 (by decide)

/-- C9: with allowed_write_files = None, every write-mode open skips the write
check entirely, delegates to the captured original open, and returns its result
unchanged — whoever the caller is and whatever the file name. -/
theorem c9_unrestricted_write (allowed_read_files : Option (List String))
    (original_open : OpenCall → Nat) (caller_filename : String) (call : OpenCall)
    (h : is_opening_for_writing call = true) :
    open_wrapper allowed_read_files none original_open caller_filename call
        = Except.ok (original_open call) := by
  simp [open_wrapper, h]

/-- C9 witness: a write-mode open of an arbitrary file with a restrictive read
list still delegates. -/
theorem c9_unrestricted_write_witness :
    open_wrapper (some []) none (fun _ => 8) "module1.py" ⟨["secret.txt", "w"], none, none⟩
        = Except.ok ((fun _ => 8) (⟨["secret.txt", "w"], none, none⟩ : OpenCall)) :=
  c9_unrestricted_write (some []) (fun _ => 8) "module1.py"
    ⟨["secret.txt", "w"], none, none⟩ (by decide)

/-- C10: an intercepted open is classified as a write exactly when its effective
mode string is one of w, a, x; any call whose mode is not one of those three is
classified as a read, and its outcome is independent of the write allow-list —
in particular the modes wb, w+, a+ and r+ are read-classified, and a wb open is
never checked against the write allow-list. -/
theorem c10_mode_classification (allowed_read_files aw1 aw2 : Option (List String))
    (original_open : OpenCall → Nat) (caller_filename : String) (call : OpenCall) :
    (is_opening_for_writing call = true
      ↔ (call.openMode = "w" ∨ call.openMode = "a" ∨ call.openMode = "x"))
    ∧ (is_opening_for_writing call = false →
        open_wrapper allowed_read_files aw1 original_open caller_filename call
          = open_wrapper allowed_read_files aw2 original_open caller_filename call)
    ∧ is_opening_for_writing ⟨["f.txt", "wb"], none, none⟩ = false
    ∧ is_opening_for_writing ⟨["f.txt", "w+"], none, none⟩ = false
    ∧ is_opening_for_writing ⟨["f.txt", "a+"], none, none⟩ = false
    ∧ is_opening_for_writing ⟨["f.txt", "r+"], none, none⟩ = false
    ∧ open_wrapper none (some []) original_open caller_filename ⟨["f.txt", "wb"], none, none⟩
        = Except.ok (original_open ⟨["f.txt", "wb"], none, none⟩) := by
  refine ⟨?_, ?_, by decide, by decide, by decide, by decide, rfl⟩
  · constructor
    · intro h1
      simpa [is_opening_for_writing] using h1
    · intro h1
      simp [is_opening_for_writing]
      tauto
  · intro h1
    simp [open_wrapper, h1]

/-- C10 witness: a wb open with two conflicting write allow-lists gives the same
outcome either way, by the read-classification part of the theorem. -/
theorem c10_mode_classification_witness :
    open_wrapper none (some []) (fun _ => 1) "module1.py" ⟨["f.txt", "wb"], none, none⟩
      = open_wrapper none (some ["f.txt"]) (fun _ => 1) "module1.py"
          ⟨["f.txt", "wb"], none, none⟩ :=
  (c10_mode_classification none (some []) (some ["f.txt"]) (fun _ => 1) "module1.py"
    ⟨["f.txt", "wb"], none, none⟩).2.1 (by decide)

